import Mathlib

/-!
Verification development for the Inventory-Mapper repository: a shallow
embedding in Lean 4 of its data model (src/types), persistence layer
(src/storage.ts), drop handlers (src/App.tsx) and the canvas gesture state
machine (src/components/CanvasGrid.tsx), together with theorems settling the
frozen behavioural claims about the program.

Conventions of the embedding:
  * JavaScript numbers are modelled as exact rationals (ℚ); integer-valued
    quantities such as grid coordinates are modelled as ℤ or ℕ.
  * JavaScript Map objects keyed by strings are modelled as functions
    String → Option CellData (insertion order is irrelevant for those maps).
  * Fire-and-forget persistence calls are modelled as explicit operation
    values returned alongside the new in-memory state.
-/

namespace InvMapper

/-- Cell record of src/types (v2 schema): grid position, the three code
fields, quantity and note. Colour is derived from code1 and never stored.
Quantity is a JS number that may be fractional, hence ℚ. -/
structure CellData where
  row : Int
  col : Int
  code1 : String
  code2 : String
  code3 : String
  quantity : ℚ
  note : String
deriving DecidableEq, Repr

/-- Legacy (v1) cell record of src/storage.ts: a flat record with a single
materialCode and a stored colour. -/
structure LegacyCellData where
  row : Int
  col : Int
  materialCode : String
  quantity : ℚ
  color : String
  note : String
deriving DecidableEq, Repr

/-- Raw record as read back from the store or an import payload: either a
legacy v1 record or an already-migrated v2 record. The JS code distinguishes
the two shapes by testing whether the object carries a code1 field; the sum
type carries the same information. -/
inductive StoredCell where
  | legacy : LegacyCellData → StoredCell
  | v2 : CellData → StoredCell
deriving DecidableEq, Repr

/-- Test for an ASCII letter, the character class [A-Za-z] of the migration
regex in src/storage.ts. -/
def isAsciiLetterChar (c : Char) : Bool :=
  (65 ≤ c.toNat && c.toNat ≤ 90) || (97 ≤ c.toNat && c.toNat ≤ 122)

/-- Test for an ASCII digit, the character class \d of the migration regex. -/
def isAsciiDigitChar (c : Char) : Bool :=
  48 ≤ c.toNat && c.toNat ≤ 57

/-- JavaScript line-terminator characters, which the dot of a regex without
the s flag does not match: LF, CR, LINE SEPARATOR, PARAGRAPH SEPARATOR. -/
def isJsLineTerminator (c : Char) : Bool :=
  c.toNat = 10 || c.toNat = 13 || c.toNat = 0x2028 || c.toNat = 0x2029

/-- Semantics of matching `materialCode.match(/^([A-Za-z]+)(\d*)(.*)$/)` in
src/storage.ts: group 1 is the maximal leading run of ASCII letters (at least
one required), group 2 the maximal following run of ASCII digits, group 3 the
rest of the string; the match fails when the string does not start with a
letter, or when the rest contains a line terminator (which the dot cannot
match and which blocks the end anchor, since backtracking cannot move a
terminator out of group 3). -/
def regexSplit (s : String) : Option (List Char × List Char × List Char) :=
  let cs := s.toList
  let letters := cs.takeWhile isAsciiLetterChar
  if letters = [] then none
  else
    let rest1 := cs.dropWhile isAsciiLetterChar
    let digits := rest1.takeWhile isAsciiDigitChar
    let rest2 := rest1.dropWhile isAsciiDigitChar
    if rest2.any isJsLineTerminator then none
    else some (letters, digits, rest2)

/-- JavaScript whitespace for String.prototype.trim: ASCII whitespace, NBSP,
BOM, the Unicode space separators and the line terminators. -/
def isJsWhitespaceChar (c : Char) : Bool :=
  let n := c.toNat
  n = 9 || n = 10 || n = 11 || n = 12 || n = 13 || n = 32 || n = 0xA0 || n = 0x1680 ||
  (0x2000 ≤ n && n ≤ 0x200A) || n = 0x2028 || n = 0x2029 || n = 0x202F || n = 0x205F ||
  n = 0x3000 || n = 0xFEFF

/-- Model of the JS trim on a character list: strip whitespace from both
ends. -/
def trimCharList (cs : List Char) : List Char :=
  ((cs.dropWhile isJsWhitespaceChar).reverse.dropWhile isJsWhitespaceChar).reverse

/-- Result triple of parseLegacyMaterialCode. -/
structure ParsedCodes where
  code1 : String
  code2 : String
  code3 : String
deriving DecidableEq, Repr

/-- Translation of parseLegacyMaterialCode (src/storage.ts): empty input gives
three empty codes; on a regex match code1 is the letter run uppercased, code2
the digit run (possibly empty), code3 the trimmed remainder; on a failed match
the whole materialCode is returned unchanged as code1. -/
def parseLegacyMaterialCode (materialCode : String) : ParsedCodes :=
  if materialCode = "" then ⟨"", "", ""⟩
  else
    match regexSplit materialCode with
    | some (letters, digits, rest) =>
        ⟨String.mk (letters.map Char.toUpper), String.mk digits, String.mk (trimCharList rest)⟩
    | none => ⟨materialCode, "", ""⟩

/-- Translation of migrateCellData (src/storage.ts): a record carrying a code1
field (the v2 shape) is returned unchanged, a legacy record is rebuilt from the
parsed materialCode; the stored colour is dropped. -/
def migrateCellData : StoredCell → CellData
  | .v2 cell => cell
  | .legacy cell =>
      let parsed := parseLegacyMaterialCode cell.materialCode
      { row := cell.row, col := cell.col, code1 := parsed.code1, code2 := parsed.code2,
        code3 := parsed.code3, quantity := cell.quantity, note := cell.note }

/-- Translation of cellHasContent (src/types): a cell has content when code1
is non-empty, or quantity is positive, or the note is non-empty; code2 and
code3 are not consulted. -/
def cellHasContent : Option CellData → Bool
  | none => false
  | some cell => cell.code1 != "" || decide (0 < cell.quantity) || cell.note != ""

/-- Translation of getCellKey (src/types): the string "row-col". -/
def getCellKey (row col : Int) : String :=
  toString row ++ "-" ++ toString col

/-- In-memory cell map of one grid surface, the model of a JS Map from cell
keys to records. -/
def CellMap : Type := String → Option CellData

/-- Model of map.set on a cell map. -/
def mapSet (m : CellMap) (key : String) (v : CellData) : CellMap :=
  fun k => if k = key then some v else m k

/-- Model of map.delete on a cell map. -/
def mapDelete (m : CellMap) (key : String) : CellMap :=
  fun k => if k = key then none else m k

/-- The empty cell map. -/
def emptyCellMap : CellMap := fun _ => none

/-- Persistence call issued by a save commit: either a durable put of a record
or a durable delete of a key. -/
inductive PersistOp where
  | save : CellData → PersistOp
  | del : Int → Int → PersistOp
deriving DecidableEq, Repr

/-- Translation of the per-grid body of handleCellSave (src/App.tsx): when the
committed record has content it is set in the in-memory map and saved durably,
otherwise the map entry is deleted and a durable delete is issued. The main
and buffer branches of the handler are textually identical up to which map and
store they address, so one function models both. -/
def handleCellSave (cells : CellMap) (cell : CellData) : CellMap × PersistOp :=
  let key := getCellKey cell.row cell.col
  if cellHasContent (some cell) then
    (mapSet cells key cell, .save cell)
  else
    (mapDelete cells key, .del cell.row cell.col)

/-- Translation of the map update of handleCellDrop (src/App.tsx), the
same-surface drop commit: a drop on the source position is a no-op, a missing
source record is a no-op, a drop on a cell with content swaps the two records
(each repositioned), a drop on an empty target moves the source record. The
identical handleBufferCellDrop is the same function on the buffer map. -/
def handleCellDrop (cells : CellMap) (sourceRow sourceCol targetRow targetCol : Int) : CellMap :=
  if sourceRow = targetRow ∧ sourceCol = targetCol then cells else
  let sourceKey := getCellKey sourceRow sourceCol
  let targetKey := getCellKey targetRow targetCol
  match cells sourceKey with
  | none => cells
  | some sourceCell =>
    match cells targetKey with
    | some targetCell =>
      if cellHasContent (some targetCell) then
        let newSource : CellData := { targetCell with row := sourceRow, col := sourceCol }
        let newTarget : CellData := { sourceCell with row := targetRow, col := targetCol }
        mapSet (mapSet cells sourceKey newSource) targetKey newTarget
      else
        let newTarget : CellData := { sourceCell with row := targetRow, col := targetCol }
        mapSet (mapDelete cells sourceKey) targetKey newTarget
    | none =>
      let newTarget : CellData := { sourceCell with row := targetRow, col := targetCol }
      mapSet (mapDelete cells sourceKey) targetKey newTarget

/-- Identity of one grid surface: the main grid or the floating buffer grid. -/
inductive GridType where
  | main
  | buffer
deriving DecidableEq, Repr

/-- The two independent record spaces held by App state. -/
structure Stores where
  cells : CellMap
  bufferCells : CellMap

/-- The cell map of the given surface. -/
def gridOf (st : Stores) : GridType → CellMap
  | .main => st.cells
  | .buffer => st.bufferCells

/-- Replace the cell map of the given surface. -/
def setGrid (st : Stores) : GridType → CellMap → Stores
  | .main, m => { st with cells := m }
  | .buffer, m => { st with bufferCells := m }

/-- Translation of the map updates of handleCrossGridDrop (the refactored App
component): the target cell is inspected on the target surface; the dragged
cell is inserted at the target position; if the target held content it is
swapped back to the source position. A same-surface drop is one combined map
update (with the source entry deleted only when its key differs from the
target key); a cross-surface drop updates the target surface then the source
surface. -/
def handleCrossGridDrop (st : Stores) (sourceGrid targetGrid : GridType) (cell : CellData)
    (targetRow targetCol : Int) : Stores :=
  let targetKey := getCellKey targetRow targetCol
  let sourceKey := getCellKey cell.row cell.col
  let targetCellExisting : Option CellData := gridOf st targetGrid targetKey
  let newTargetCell : CellData := { cell with row := targetRow, col := targetCol }
  let newSourceCell : Option CellData :=
    match targetCellExisting with
    | some t =>
        if cellHasContent (some t) then some { t with row := cell.row, col := cell.col }
        else none
    | none => none
  if sourceGrid = targetGrid then
    let m0 := gridOf st sourceGrid
    let m1 := mapSet m0 targetKey newTargetCell
    let m2 :=
      match newSourceCell with
      | some s => mapSet m1 sourceKey s
      | none => if sourceKey ≠ targetKey then mapDelete m1 sourceKey else m1
    setGrid st sourceGrid m2
  else
    let st1 := setGrid st targetGrid (mapSet (gridOf st targetGrid) targetKey newTargetCell)
    let m1 := gridOf st1 sourceGrid
    let m2 :=
      match newSourceCell with
      | some s => mapSet m1 sourceKey s
      | none => mapDelete m1 sourceKey
    setGrid st1 sourceGrid m2

/-- Loop body of getColumnLabel (src/types): repeatedly prepend the character
for n mod 26 and step to n / 26 - 1 while that stays non-negative. The fuel
argument only bounds the iteration count so that the recursion is structural;
n strictly decreases every iteration, so fuel n + 1 never runs out. -/
def columnLabelGo : Nat → Nat → String → String
  | 0, _, acc => acc
  | fuel + 1, n, acc =>
      let acc2 := String.mk [Char.ofNat (65 + n % 26)] ++ acc
      if n < 26 then acc2 else columnLabelGo fuel (n / 26 - 1) acc2

/-- Translation of getColumnLabel (src/types): spreadsheet column letters in
bijective base 26 (0 mapsto A, 25 mapsto Z, 26 mapsto AA, and so on). -/
def getColumnLabel (col : Nat) : String :=
  columnLabelGo (col + 1) col ""

/-- Strict lexicographic order on character lists, comparing code points. -/
def charSeqLt : List Char → List Char → Bool
  | _, [] => false
  | [], _ :: _ => true
  | a :: as, b :: bs =>
      if a.toNat < b.toNat then true
      else if a.toNat = b.toNat then charSeqLt as bs
      else false

/-- Shortlex (length, then lexicographic) order on strings: the order in which
spreadsheet column labels are conventionally enumerated. -/
def shortlexLt (a b : String) : Bool :=
  if a.length < b.length then true
  else if a.length = b.length then charSeqLt a.toList b.toList
  else false

/-- Concrete source cell for the drop involution witness. -/
def dropWitnessA : CellData := ⟨0, 0, "S", "5", "", 1, ""⟩

/-- Concrete target cell for the drop involution witness. -/
def dropWitnessB : CellData := ⟨1, 2, "F", "", "", 2, "checked"⟩

/-- Concrete main-grid map for the drop involution witness. -/
def dropWitnessCells : CellMap :=
  mapSet (mapSet emptyCellMap (getCellKey 0 0) dropWitnessA) (getCellKey 1 2) dropWitnessB

/-- Concrete pair of record spaces for the drop involution witness: A on the
main grid, B on the buffer grid. -/
def dropWitnessStores : Stores :=
  ⟨mapSet emptyCellMap (getCellKey 0 0) dropWitnessA,
   mapSet emptyCellMap (getCellKey 1 2) dropWitnessB⟩

/-! Import path of src/storage.ts. -/

/-- Durable bulk operation issued by the import path: clearing or saving a
whole record space. -/
inductive StoreOp where
  | clearMain
  | saveMain (cells : List CellData)
  | clearBuffer
  | saveBuffer (cells : List CellData)
deriving DecidableEq, Repr

/-- Shape of a successfully parsed import document as importData consumes it:
either a bare array of records (legacy export) or an object whose cells and
bufferCells fields may each be absent. -/
inductive ParsedImport where
  | rootArray (cells : List StoredCell)
  | rootObject (cells : Option (List StoredCell)) (bufferCells : Option (List StoredCell))

/-- Error message surfaced by the import-failure path of App.handleImport. -/
def importErrorMessage : String := "Failed to import data. Make sure the file is valid JSON."

/-- Translation of importData (src/storage.ts). JSON.parse is a host builtin,
modelled as an abstract parse function returning none exactly when it would
throw on invalid JSON. On a parse failure the thrown error propagates before
any storage operation; on success both record spaces are cleared and then
saved, in that order. The returned list is the sequence of durable operations
performed. -/
def importData (parseJson : String → Option ParsedImport) (jsonData : String) :
    Except String (List StoreOp) :=
  match parseJson jsonData with
  | none => .error importErrorMessage
  | some parsed =>
      let rawCells : List StoredCell :=
        match parsed with
        | .rootArray cs => cs
        | .rootObject cs _ => cs.getD []
      let rawBufferCells : List StoredCell :=
        match parsed with
        | .rootArray _ => []
        | .rootObject _ bs => bs.getD []
      let cells := rawCells.map migrateCellData
      let bufferCells := rawBufferCells.map migrateCellData
      .ok [.clearMain, .saveMain cells, .clearBuffer, .saveBuffer bufferCells]

/-- Effect of one durable bulk operation on the two record spaces. -/
def applyStoreOp (st : Stores) : StoreOp → Stores
  | .clearMain => { st with cells := emptyCellMap }
  | .saveMain cs =>
      { st with cells := cs.foldl (fun m c => mapSet m (getCellKey c.row c.col) c) st.cells }
  | .clearBuffer => { st with bufferCells := emptyCellMap }
  | .saveBuffer cs =>
      { st with bufferCells :=
          cs.foldl (fun m c => mapSet m (getCellKey c.row c.col) c) st.bufferCells }

/-- Run the import against the record spaces: on error the spaces are left as
they were, on success the performed operations are applied in order. -/
def runImport (parseJson : String → Option ParsedImport) (jsonData : String) (st : Stores) :
    Except String Unit × Stores :=
  match importData parseJson jsonData with
  | .error e => (.error e, st)
  | .ok ops => (.ok (), ops.foldl applyStoreOp st)

/-! Gesture state machine of src/components/CanvasGrid.tsx. All pixel
coordinates and timestamps are exact rationals. Every comparison the source
makes between a Euclidean distance and a threshold is embedded as the exact
equivalent comparison between the squared distance and the squared threshold
(both sides are non-negative, so sqrt d < t iff d < t*t). Where the value of
Math.sqrt itself matters — the stored pinch distance and the derived scale
factor — the machine is parameterised by an abstract sqrtQ function modelling
the host's square root. -/

/-- Gesture constant LONG_PRESS_DURATION of CanvasGrid.tsx (milliseconds). -/
def LONG_PRESS_DURATION : ℚ := 500

/-- Gesture constant TAP_THRESHOLD of CanvasGrid.tsx (pixels). -/
def TAP_THRESHOLD : ℚ := 10

/-- Gesture constant PINCH_THRESHOLD of CanvasGrid.tsx (pixels). -/
def PINCH_THRESHOLD : ℚ := 10

/-- Zoom bound MIN_SCALE of CanvasGrid.tsx (0.3). -/
def MIN_SCALE : ℚ := 3 / 10

/-- Zoom bound MAX_SCALE of CanvasGrid.tsx. -/
def MAX_SCALE : ℚ := 3

/-- Viewport state of one surface: pan offset and zoom scale. -/
structure ViewportState where
  offsetX : ℚ
  offsetY : ℚ
  scale : ℚ
deriving DecidableEq, Repr

/-- Initial viewport of a surface: no pan, scale 1. -/
def initialViewport : ViewportState := ⟨0, 0, 1⟩

/-- Per-contact pointer record of src/types: current position, start position
and start timestamp, keyed by pointer id. -/
structure PointerData where
  id : Nat
  x : ℚ
  y : ℚ
  startX : ℚ
  startY : ℚ
  startTime : ℚ
deriving DecidableEq, Repr

/-- Grid geometry of src/types GridConfig. -/
structure GridConfig where
  rows : Int
  cols : Int
  cellWidth : ℚ
  cellHeight : ℚ
  headerHeight : ℚ
  rowHeaderWidth : ℚ
deriving DecidableEq, Repr

/-- DEFAULT_GRID_CONFIG of src/types: 50 x 100 grid of 80 x 40 cells with a
30 px header band and a 50 px row-label band. -/
def DEFAULT_GRID_CONFIG : GridConfig := ⟨50, 100, 80, 40, 30, 50⟩

/-- Gesture states of src/types. -/
inductive GestureState where
  | idle
  | panning
  | zooming
  | longPress
  | dragging
deriving DecidableEq, Repr

/-- Local drag state of one surface (src/types DragState). -/
structure DragState where
  isDragging : Bool
  sourceCell : Option CellData
  sourceRow : Int
  sourceCol : Int
  currentX : ℚ
  currentY : ℚ
deriving DecidableEq, Repr

/-- Cleared drag state, as reset by the handlers. -/
def inactiveDragState : DragState := ⟨false, none, -1, -1, 0, 0⟩

/-- Closure data of the armed long-press timeout in handlePointerDown: the
pointer id, the grid position resolved at pointer-down time, and the
pointer-down client coordinates captured by the closure. -/
structure TimerData where
  pid : Nat
  row : Int
  col : Int
  downX : ℚ
  downY : ℚ
deriving DecidableEq, Repr

/-- Fixed surroundings of one CanvasGrid instance during a gesture: grid
geometry, the canvas bounding rectangle, the cells prop, and the host square
root. -/
structure GestureEnv where
  config : GridConfig
  rectLeft : ℚ
  rectTop : ℚ
  cells : CellMap
  sqrtQ : ℚ → ℚ

/-- Full mutable state of the gesture machine: tracked pointers in insertion
order (JS Map iteration order), the gesture state ref, the armed long-press
timer, the three pinch refs, the viewport and the drag state. -/
structure MachineState where
  pointers : List PointerData
  gesture : GestureState
  timer : Option TimerData
  initialPinchDistance : ℚ
  initialScale : ℚ
  initialPinchCenterX : ℚ
  initialPinchCenterY : ℚ
  viewport : ViewportState
  drag : DragState

/-- Quiescent machine over a given viewport: no pointers, idle, no timer,
pinch refs at their useRef initial values, inactive drag. -/
def initMachineState (vp : ViewportState) : MachineState :=
  ⟨[], .idle, none, 0, 1, 0, 0, vp, inactiveDragState⟩

/-- Observable side effects emitted by the handlers towards the parent App:
a cell tap, a drag start, a drag move, a drag end. -/
inductive GestureEffect where
  | cellTap (row col : Int)
  | dragStart (cell : CellData) (row col : Int)
  | dragMove (x y : ℚ)
  | dragEnd
deriving DecidableEq, Repr

/-- Horizontal part of the inverse viewport transform used by screenToGrid:
subtract the canvas origin and pan offset, divide by scale. -/
def invTransformX (env : GestureEnv) (vp : ViewportState) (sx : ℚ) : ℚ :=
  (sx - env.rectLeft - vp.offsetX) / vp.scale

/-- Vertical part of the inverse viewport transform used by screenToGrid. -/
def invTransformY (env : GestureEnv) (vp : ViewportState) (sy : ℚ) : ℚ :=
  (sy - env.rectTop - vp.offsetY) / vp.scale

/-- Translation of screenToGrid (CanvasGrid.tsx): apply the inverse viewport
transform, reject points in the header band or the row-label band, floor-divide
by the cell size, reject out-of-range results. -/
def screenToGrid (env : GestureEnv) (vp : ViewportState) (sx sy : ℚ) : Option (Int × Int) :=
  let x := invTransformX env vp sx
  let y := invTransformY env vp sy
  if y < env.config.headerHeight ∨ x < env.config.rowHeaderWidth then none
  else
    let col := ((x - env.config.rowHeaderWidth) / env.config.cellWidth).floor
    let row := ((y - env.config.headerHeight) / env.config.cellHeight).floor
    if row < 0 ∨ row ≥ env.config.rows ∨ col < 0 ∨ col ≥ env.config.cols then none
    else some (row, col)

/-- Squared Euclidean distance between two points; the source compares its
square root against thresholds. -/
def dist2 (x1 y1 x2 y2 : ℚ) : ℚ :=
  (x1 - x2) ^ 2 + (y1 - y2) ^ 2

/-- Lookup of pointersRef.current.get. -/
def findPointer (ps : List PointerData) (pid : Nat) : Option PointerData :=
  ps.find? (fun p => p.id == pid)

/-- Model of pointersRef.current.set with a fresh record: JS Map set keeps the
insertion position of an existing key and appends a new one. -/
def insertPointer (ps : List PointerData) (p : PointerData) : List PointerData :=
  if ps.any (fun q => q.id == p.id) then ps.map (fun q => if q.id == p.id then p else q)
  else ps ++ [p]

/-- Model of the in-place mutation pointer.x := clientX performed by
handlePointerMove on the tracked record. -/
def updatePointerPos (ps : List PointerData) (pid : Nat) (x y : ℚ) : List PointerData :=
  ps.map (fun p => if p.id == pid then { p with x := x, y := y } else p)

/-- Model of pointersRef.current.delete. -/
def removePointer (ps : List PointerData) (pid : Nat) : List PointerData :=
  ps.filter (fun p => p.id != pid)

/-- Translation of handlePointerDown (CanvasGrid.tsx): record the contact; a
first contact resets the gesture to idle and arms the long-press timer when
the start point resolves to a grid cell; a second contact cancels the timer,
enters zooming and captures the initial pinch distance, scale and centroid;
further contacts are only recorded. -/
def handlePointerDownM (env : GestureEnv) (s : MachineState) (pid : Nat) (x y t : ℚ) :
    MachineState × List GestureEffect :=
  let p : PointerData := ⟨pid, x, y, x, y, t⟩
  let ps := insertPointer s.pointers p
  if ps.length = 1 then
    let s1 := { s with pointers := ps, gesture := .idle }
    match screenToGrid env s.viewport x y with
    | some (row, col) => ({ s1 with timer := some ⟨pid, row, col, x, y⟩ }, [])
    | none => (s1, [])
  else if ps.length = 2 then
    match ps with
    | p1 :: p2 :: _ =>
        ({ s with
            pointers := ps, gesture := .zooming, timer := none
            initialPinchDistance := env.sqrtQ (dist2 p1.x p1.y p2.x p2.y)
            initialScale := s.viewport.scale
            initialPinchCenterX := (p1.x + p2.x) / 2
            initialPinchCenterY := (p1.y + p2.y) / 2 }, [])
    | _ => ({ s with pointers := ps }, [])
  else
    ({ s with pointers := ps }, [])

/-- Translation of the two-finger branch of handlePointerMove: when the change
of the inter-finger distance exceeds the pinch threshold, derive the new scale
from the distance ratio, clamp it to [MIN_SCALE, MAX_SCALE], and recompute the
pan offset so the current centroid keeps its content position. -/
def applyPinchZoom (env : GestureEnv) (s : MachineState) (p1 p2 : PointerData) : MachineState :=
  let currentDistance := env.sqrtQ (dist2 p1.x p1.y p2.x p2.y)
  if |currentDistance - s.initialPinchDistance| > PINCH_THRESHOLD then
    let newScale := max MIN_SCALE (min MAX_SCALE
      (s.initialScale * (currentDistance / s.initialPinchDistance)))
    let cx := (p1.x + p2.x) / 2 - env.rectLeft
    let cy := (p1.y + p2.y) / 2 - env.rectTop
    let k := newScale / s.viewport.scale
    { s with viewport :=
        ⟨cx - (cx - s.viewport.offsetX) * k, cy - (cy - s.viewport.offsetY) * k, newScale⟩ }
  else s

/-- Translation of handlePointerMove (CanvasGrid.tsx): untracked pointers are
ignored; with a single contact, a dragging gesture updates the live cursor and
emits a drag-move, otherwise sub-threshold movement does nothing and
over-threshold movement cancels the timer and enters panning (the main surface
leaves the viewport to native scrolling, so panning mutates no state); with
two contacts in the zooming state the pinch-zoom update applies. -/
def handlePointerMoveM (env : GestureEnv) (s : MachineState) (pid : Nat) (x y : ℚ) :
    MachineState × List GestureEffect :=
  match findPointer s.pointers pid with
  | none => (s, [])
  | some _ =>
    let ps := updatePointerPos s.pointers pid x y
    let s0 := { s with pointers := ps }
    if ps.length = 1 then
      match findPointer ps pid with
      | some p =>
        if s.gesture = .dragging then
          ({ s0 with drag := { s.drag with currentX := x, currentY := y } }, [.dragMove x y])
        else if s.gesture ≠ .longPress then
          if dist2 p.x p.y p.startX p.startY > TAP_THRESHOLD ^ 2 then
            ({ s0 with timer := none, gesture := .panning }, [])
          else (s0, [])
        else (s0, [])
      | none => (s0, [])
    else if ps.length = 2 ∧ s.gesture = .zooming then
      match ps with
      | p1 :: p2 :: _ => (applyPinchZoom env s0 p1 p2, [])
      | _ => (s0, [])
    else (s0, [])

/-- Translation of handlePointerUp (CanvasGrid.tsx): the timer is always
cleared; for the last tracked contact, a dragging gesture resets the drag
state and emits drag-end, and an idle gesture within the tap threshold and
under the long-press duration emits a cell tap resolved at the start point;
the contact is then dropped, an empty pointer set returns to idle, and a
remaining contact of a two-finger gesture restarts as a pan from its current
position. -/
def handlePointerUpM (env : GestureEnv) (s : MachineState) (pid : Nat) (t : ℚ) :
    MachineState × List GestureEffect :=
  let pOpt := findPointer s.pointers pid
  let s1 := { s with timer := none }
  let step1 : MachineState × List GestureEffect :=
    match pOpt with
    | some p =>
      if s.pointers.length = 1 then
        if s.gesture = .dragging then
          ({ s1 with drag := inactiveDragState }, [.dragEnd])
        else if s.gesture = .idle ∧ dist2 p.x p.y p.startX p.startY < TAP_THRESHOLD ^ 2 ∧
            t - p.startTime < LONG_PRESS_DURATION then
          match screenToGrid env s.viewport p.startX p.startY with
          | some (row, col) => (s1, [.cellTap row col])
          | none => (s1, [])
        else (s1, [])
      else (s1, [])
    | none => (s1, [])
  let s2 := step1.1
  let ps := removePointer s2.pointers pid
  if ps.length = 0 then
    ({ s2 with pointers := ps, gesture := .idle }, step1.2)
  else if ps.length = 1 then
    match ps with
    | [q] =>
        ({ s2 with
            pointers := [{ q with startX := q.x, startY := q.y }]
            gesture := .panning }, step1.2)
    | _ => ({ s2 with pointers := ps }, step1.2)
  else ({ s2 with pointers := ps }, step1.2)

/-- Translation of handlePointerCancel (CanvasGrid.tsx): drop the contact,
clear the timer, and when no contacts remain return to idle and clear the
drag state. -/
def handlePointerCancelM (s : MachineState) (pid : Nat) : MachineState × List GestureEffect :=
  let ps := removePointer s.pointers pid
  let s1 := { s with pointers := ps, timer := none }
  if ps.length = 0 then ({ s1 with gesture := .idle, drag := inactiveDragState }, [])
  else (s1, [])

/-- Translation of the long-press timeout callback armed by handlePointerDown:
when the pointer is still tracked, alone, and within the tap threshold of its
start, enter longPress; if the cell resolved at pointer-down holds content,
enter dragging, capture the cell snapshot and emit a drag-start. The timeout
is one-shot, so the armed timer is consumed. -/
def fireLongPressTimerM (env : GestureEnv) (s : MachineState) :
    MachineState × List GestureEffect :=
  match s.timer with
  | none => (s, [])
  | some tm =>
    let s1 := { s with timer := none }
    match findPointer s1.pointers tm.pid with
    | some p =>
      if s1.pointers.length = 1 ∧ dist2 p.x p.y p.startX p.startY < TAP_THRESHOLD ^ 2 then
        let s2 := { s1 with gesture := .longPress }
        match env.cells (getCellKey tm.row tm.col) with
        | some cell =>
          if cellHasContent (some cell) then
            ({ s2 with
                gesture := .dragging
                drag := ⟨true, some cell, tm.row, tm.col, tm.downX, tm.downY⟩ },
             [.dragStart cell tm.row tm.col])
          else (s2, [])
        | none => (s2, [])
      else (s1, [])
    | none => (s1, [])

/-- Raw pointer-event stream consumed by the machine; timerFire is the armed
long-press timeout running. -/
inductive PointerEvent where
  | down (pid : Nat) (x y t : ℚ)
  | move (pid : Nat) (x y : ℚ)
  | up (pid : Nat) (t : ℚ)
  | cancel (pid : Nat)
  | timerFire
deriving DecidableEq, Repr

/-- Dispatch one event to its handler. -/
def stepMachine (env : GestureEnv) (s : MachineState) :
    PointerEvent → MachineState × List GestureEffect
  | .down pid x y t => handlePointerDownM env s pid x y t
  | .move pid x y => handlePointerMoveM env s pid x y
  | .up pid t => handlePointerUpM env s pid t
  | .cancel pid => handlePointerCancelM s pid
  | .timerFire => fireLongPressTimerM env s

/-- Run the machine over an event stream, accumulating emitted effects. -/
def runMachine (env : GestureEnv) (s : MachineState) (events : List PointerEvent) :
    MachineState × List GestureEffect :=
  events.foldl (fun acc e =>
    ((stepMachine env acc.1 e).1, acc.2 ++ (stepMachine env acc.1 e).2)) (s, [])

/-- Condition of the draw loop of CanvasGrid.tsx under which a cell is painted
as populated: its record exists and cellHasContent holds. -/
def isRenderedAsPopulated (cells : CellMap) (row col : Int) : Bool :=
  match cells (getCellKey row col) with
  | some cell => cellHasContent (some cell)
  | none => false

/-- Binary-search loop of the fuel-based integer square root used to
instantiate the abstract sqrtQ on concrete traces; the invariant is lo^2 ≤ n
within the bracket. -/
def intSqrtGo (n : Nat) : Nat → Nat → Nat → Nat
  | 0, lo, _ => lo
  | fuel + 1, lo, hi =>
      if hi ≤ lo + 1 then lo
      else
        let mid := (lo + hi) / 2
        if mid * mid ≤ n then intSqrtGo n fuel mid hi else intSqrtGo n fuel lo mid

/-- Floor integer square root by bracketed binary search; 70 halvings cover
every Nat below 2^69, so this is exact on all inputs of the concrete traces
used here. -/
def natSqrtFuel (n : Nat) : Nat := intSqrtGo n 70 0 (n + 1)

/-- Concrete stand-in for the host Math.sqrt on the traces below: their
distance squares are perfect squares of naturals (1600 and 57600), on which
the floor integer square root is the exact square root (40 and 240). -/
def demoSqrtQ (q : ℚ) : ℚ := (natSqrtFuel q.num.toNat : ℚ)

/-- Concrete surface for the pinch theorems: the default grid geometry, canvas
at the screen origin, no cells. -/
def pinchEnv : GestureEnv := ⟨DEFAULT_GRID_CONFIG, 0, 0, emptyCellMap, demoSqrtQ⟩

/-- Concrete zooming state for the pinch anchoring witness: two fingers down
at (130,70) and (170,70), initial pinch distance 40, scale 1. -/
def pinchWitnessState : MachineState where
  pointers := [⟨1, 130, 70, 130, 70, 0⟩, ⟨2, 170, 70, 170, 70, 0⟩]
  gesture := .zooming
  timer := none
  initialPinchDistance := 40
  initialScale := 1
  initialPinchCenterX := 150
  initialPinchCenterY := 70
  viewport := initialViewport
  drag := inactiveDragState

/-- Machine state reached right after a first pointer-down over a resolved
grid cell: one tracked contact (whose current position the following moves
update), idle gesture, the long-press timer armed on the start point. -/
def tapMidState (vp : ViewportState) (pid : Nat) (x0 y0 t0 : ℚ) (r c : Int) (cx cy : ℚ) :
    MachineState :=
  ⟨[⟨pid, cx, cy, x0, y0, t0⟩], .idle, some ⟨pid, r, c, x0, y0⟩, 0, 1, 0, 0, vp,
    inactiveDragState⟩

/-- Populated cell used by the gesture witness, sitting at grid cell (1,1). -/
def tapWitnessCell : CellData := ⟨1, 1, "S", "5", "", 1, ""⟩

/-- Concrete surface for the gesture witness: default geometry, canvas at the
origin, one populated cell at (1,1). -/
def tapWitnessEnv : GestureEnv :=
  ⟨DEFAULT_GRID_CONFIG, 0, 0, mapSet emptyCellMap (getCellKey 1 1) tapWitnessCell, demoSqrtQ⟩

/-- Timer-armed machine state for the C9 witness: one finger resting on grid
cell (1,1). -/
def emptinessWitnessState : MachineState :=
  ⟨[⟨7, 150, 70, 150, 70, 0⟩], .idle, some ⟨7, 1, 1, 150, 70⟩, 0, 1, 0, 0,
    initialViewport, inactiveDragState⟩

/-- Surface for the C9 witness: the cell under the timer has code2 and code3
text but empty code1, zero quantity and empty note. -/
def emptinessWitnessEnv : GestureEnv :=
  ⟨DEFAULT_GRID_CONFIG, 0, 0,
    mapSet emptyCellMap (getCellKey 1 1) ⟨1, 1, "", "10", "PIM", 0, ""⟩, demoSqrtQ⟩

/-! Helper lemmas about the shortlex order. -/

theorem charSeqLt_cons_iff (x y : Char) (xs ys : List Char) :
    charSeqLt (x :: xs) (y :: ys) = true ↔
      x.toNat < y.toNat ∨ (x.toNat = y.toNat ∧ charSeqLt xs ys = true) := by
  simp only [charSeqLt]
  split_ifs with h1 h2 <;> simp_all

theorem charSeqLt_trans :
    ∀ a b c : List Char, charSeqLt a b = true → charSeqLt b c = true →
      charSeqLt a c = true := by
  intro a
  induction a with
  | nil =>
      intro b c hab hbc
      cases b <;> cases c <;> simp_all [charSeqLt]
  | cons x xs ih =>
      intro b c hab hbc
      cases b with
      | nil => simp [charSeqLt] at hab
      | cons y ys =>
        cases c with
        | nil => simp [charSeqLt] at hbc
        | cons z zs =>
          rw [charSeqLt_cons_iff] at hab hbc ⊢
          rcases hab with h | ⟨he, hr⟩ <;> rcases hbc with h2 | ⟨he2, hr2⟩
          · exact Or.inl (by omega)
          · exact Or.inl (by omega)
          · exact Or.inl (by omega)
          · exact Or.inr ⟨by omega, ih ys zs hr hr2⟩

theorem charSeqLt_irrefl : ∀ a : List Char, charSeqLt a a = false := by
  intro a
  induction a with
  | nil => rfl
  | cons x xs ih => simp [charSeqLt, ih]

theorem shortlexLt_iff (a b : String) :
    shortlexLt a b = true ↔
      a.length < b.length ∨ (a.length = b.length ∧ charSeqLt a.toList b.toList = true) := by
  simp only [shortlexLt]
  split_ifs with h1 h2 <;> simp_all

theorem shortlexLt_trans (a b c : String) (hab : shortlexLt a b = true)
    (hbc : shortlexLt b c = true) : shortlexLt a c = true := by
  rw [shortlexLt_iff] at hab hbc ⊢
  rcases hab with h | ⟨he, hr⟩ <;> rcases hbc with h2 | ⟨he2, hr2⟩
  · exact Or.inl (by omega)
  · exact Or.inl (by omega)
  · exact Or.inl (by omega)
  · exact Or.inr ⟨by omega, charSeqLt_trans _ _ _ hr hr2⟩

theorem shortlexLt_irrefl (a : String) : shortlexLt a a = false := by
  simp [shortlexLt, charSeqLt_irrefl]

theorem shortlexLt_ne (a b : String) (h : shortlexLt a b = true) : a ≠ b := by
  intro he
  subst he
  rw [shortlexLt_irrefl] at h
  exact Bool.false_ne_true h

set_option maxRecDepth 40000 in
/-- Adjacent column labels are shortlex-increasing over the claimed range,
checked exhaustively. -/
theorem columnLabel_lt_succ :
    ∀ n : Nat, n < 999 → shortlexLt (getColumnLabel n) (getColumnLabel (n + 1)) = true := by
  decide

/-- Shortlex monotonicity of getColumnLabel over the claimed range, by
chaining the adjacent comparisons. -/
theorem columnLabel_mono_aux :
    ∀ b a : Nat, a < b → b < 1000 →
      shortlexLt (getColumnLabel a) (getColumnLabel b) = true := by
  intro b
  induction b with
  | zero => intro a h _; exact absurd h (Nat.not_lt_zero a)
  | succ b ih =>
      intro a hab hb
      rcases Nat.lt_succ_iff_lt_or_eq.mp hab with h | h
      · exact shortlexLt_trans _ _ _ (ih a h (by omega)) (columnLabel_lt_succ b (by omega))
      · subst h; exact columnLabel_lt_succ a (by omega)

/-- C7: getColumnLabel follows spreadsheet convention — label(0) = "A",
label(25) = "Z", label(26) = "AA", label(701) = "ZZ" — and over [0, 1000) it
is strictly increasing in the shortlex (spreadsheet) order on strings and
injective. -/
theorem getColumnLabel_strictMono_injective :
    getColumnLabel 0 = "A" ∧ getColumnLabel 25 = "Z" ∧ getColumnLabel 26 = "AA" ∧
    getColumnLabel 701 = "ZZ" ∧
    (∀ a b : Nat, a < b → b < 1000 →
      shortlexLt (getColumnLabel a) (getColumnLabel b) = true) ∧
    (∀ a b : Nat, a < 1000 → b < 1000 → getColumnLabel a = getColumnLabel b → a = b) := by
  refine ⟨by decide, by decide, by decide, by decide,
    fun a b hab hb => columnLabel_mono_aux b a hab hb, ?_⟩
  intro a b ha hb he
  rcases lt_trichotomy a b with h | h | h
  · exact absurd he (shortlexLt_ne _ _ (columnLabel_mono_aux b a h hb))
  · exact h
  · exact absurd he.symm (shortlexLt_ne _ _ (columnLabel_mono_aux a b h ha))

/-- Witness for C7 at concrete inputs: monotonicity applied at 27 < 700 and
injectivity applied at 51, 51. -/
theorem getColumnLabel_strictMono_injective_witness :
    shortlexLt (getColumnLabel 27) (getColumnLabel 700) = true ∧ (51 : Nat) = 51 :=
  ⟨getColumnLabel_strictMono_injective.2.2.2.2.1 27 700 (by decide) (by decide),
   getColumnLabel_strictMono_injective.2.2.2.2.2 51 51 (by decide) (by decide) rfl⟩

/-- C2: migrateCellData is the identity on records already carrying code1
(hence migrating twice equals migrating once), and on legacy records it
applies the fixed regex policy: S5 splits into code1 S, code2 5, empty code3,
and SI10PIM into code1 SI, code2 10, code3 PIM, other fields carried over and
the stored colour dropped. -/
theorem migrateCellData_idempotent_examples :
    (∀ cell : CellData, migrateCellData (.v2 cell) = cell) ∧
    (∀ sc : StoredCell, migrateCellData (.v2 (migrateCellData sc)) = migrateCellData sc) ∧
    migrateCellData (.legacy ⟨2, 3, "S5", 7, "#00FF66", "hello"⟩) =
      ⟨2, 3, "S", "5", "", 7, "hello"⟩ ∧
    migrateCellData (.legacy ⟨0, 1, "SI10PIM", 3, "red", ""⟩) =
      ⟨0, 1, "SI", "10", "PIM", 3, ""⟩ := by
  refine ⟨fun _ => rfl, fun _ => rfl, by decide, by decide⟩

/-- C10: fallback of parseLegacyMaterialCode — the empty materialCode parses
to three empty codes; any materialCode the regex does not match (in
particular any non-empty one whose first character is not an ASCII letter,
such as "5S" or "5s") comes back whole and unchanged (not uppercased) as
code1 with empty code2 and code3. -/
theorem parseLegacyMaterialCode_fallback :
    parseLegacyMaterialCode "" = ⟨"", "", ""⟩ ∧
    (∀ s : String, regexSplit s = none → parseLegacyMaterialCode s = ⟨s, "", ""⟩) ∧
    (∀ (s : String) (x : Char) (xs : List Char),
      s.toList = x :: xs → isAsciiLetterChar x = false → regexSplit s = none) ∧
    parseLegacyMaterialCode "5S" = ⟨"5S", "", ""⟩ ∧
    parseLegacyMaterialCode "5s" = ⟨"5s", "", ""⟩ := by
  refine ⟨by decide, ?_, ?_, by decide, by decide⟩
  · intro s h
    by_cases hs : s = ""
    · subst hs; rfl
    · simp [parseLegacyMaterialCode, hs, h]
  · intro s x xs hcs hletter
    unfold regexSplit
    rw [hcs]
    simp [List.takeWhile_cons, hletter]

/-- Witness for C10 at the concrete input "5S": its regex match fails and the
fallback returns it unchanged. -/
theorem parseLegacyMaterialCode_fallback_witness :
    regexSplit "5S" = none ∧ parseLegacyMaterialCode "5S" = ⟨"5S", "", ""⟩ := by
  have hnone : regexSplit "5S" = none :=
    parseLegacyMaterialCode_fallback.2.2.1 "5S" '5' ['S'] (by decide) (by decide)
  exact ⟨hnone, parseLegacyMaterialCode_fallback.2.1 "5S" hnone⟩

/-- C3: committing a record with empty code1, zero quantity and empty note
removes the in-memory map entry and issues a durable delete, not a save —
equivalent to deleting the cell. -/
theorem handleCellSave_empty_deletes (cells : CellMap) (cell : CellData)
    (h1 : cell.code1 = "") (h2 : cell.quantity = 0) (h3 : cell.note = "") :
    handleCellSave cells cell =
      (mapDelete cells (getCellKey cell.row cell.col), .del cell.row cell.col) ∧
    (handleCellSave cells cell).1 (getCellKey cell.row cell.col) = none := by
  have hc : cellHasContent (some cell) = false := by
    simp [cellHasContent, h1, h2, h3]
  refine ⟨by simp [handleCellSave, hc], by simp [handleCellSave, hc, mapDelete]⟩

/-- Witness for C3 at a concrete record: code2 and code3 text present but
code1, quantity and note empty. -/
theorem handleCellSave_empty_deletes_witness :
    handleCellSave emptyCellMap ⟨1, 2, "", "10", "PIM", 0, ""⟩ =
      (mapDelete emptyCellMap (getCellKey 1 2), .del 1 2) ∧
    (handleCellSave emptyCellMap ⟨1, 2, "", "10", "PIM", 0, ""⟩).1 (getCellKey 1 2) = none :=
  handleCellSave_empty_deletes emptyCellMap ⟨1, 2, "", "10", "PIM", 0, ""⟩ rfl rfl rfl

/-! Helper lemmas about the two record spaces. -/

theorem gridOf_setGrid_same (st : Stores) (g : GridType) (m : CellMap) :
    gridOf (setGrid st g m) g = m := by
  cases g <;> rfl

theorem gridOf_setGrid_ne (st : Stores) (g g2 : GridType) (m : CellMap) (h : g2 ≠ g) :
    gridOf (setGrid st g m) g2 = gridOf st g2 := by
  cases g <;> cases g2 <;> first | rfl | exact absurd rfl h

theorem setGrid_setGrid (st : Stores) (g : GridType) (m m2 : CellMap) :
    setGrid (setGrid st g m) g m2 = setGrid st g m2 := by
  cases st; cases g <;> rfl

/-- C1: drop involution. Cell A sits at the source position and cell B, which
holds content, at the target position; committing the drop of A onto B (a
swap) and then committing a drop of the repositioned cell now at the target
back onto the source position restores every entry of the cell map — through
handleCellDrop for a same-surface drop, and through handleCrossGridDrop for
any pair of surfaces (same or different). -/
theorem drop_involution
    (cells : CellMap) (st : Stores) (g1 g2 : GridType) (A B : CellData)
    (sr sc tr tc : Int)
    (hAr : A.row = sr) (hAc : A.col = sc) (hBr : B.row = tr) (hBc : B.col = tc)
    (_hcA : cellHasContent (some A) = true) (hcB : cellHasContent (some B) = true)
    (hkey : getCellKey sr sc ≠ getCellKey tr tc)
    (h1 : cells (getCellKey sr sc) = some A) (h2 : cells (getCellKey tr tc) = some B)
    (hm1 : gridOf st g1 (getCellKey sr sc) = some A)
    (hm2 : gridOf st g2 (getCellKey tr tc) = some B) :
    (∀ k, handleCellDrop (handleCellDrop cells sr sc tr tc) tr tc sr sc k = cells k) ∧
    (∀ g k,
      gridOf (handleCrossGridDrop (handleCrossGridDrop st g1 g2 A tr tc) g2 g1
          { A with row := tr, col := tc } sr sc) g k = gridOf st g k) := by
  subst hAr hAc hBr hBc
  constructor
  · -- same-surface involution through handleCellDrop
    have hne : ¬(A.row = B.row ∧ A.col = B.col) := fun hh => hkey (by rw [hh.1, hh.2])
    have hne2 : ¬(B.row = A.row ∧ B.col = A.col) := fun hh => hkey (by rw [hh.1, hh.2])
    have e1 : handleCellDrop cells A.row A.col B.row B.col =
        mapSet (mapSet cells (getCellKey A.row A.col) { B with row := A.row, col := A.col })
          (getCellKey B.row B.col) { A with row := B.row, col := B.col } := by
      simp only [handleCellDrop, if_neg hne, h1, h2, hcB, if_true]
    rw [e1]
    have h1b : (mapSet (mapSet cells (getCellKey A.row A.col)
        { B with row := A.row, col := A.col })
        (getCellKey B.row B.col) { A with row := B.row, col := B.col }) (getCellKey B.row B.col)
        = some { A with row := B.row, col := B.col } := by
      simp [mapSet]
    have h2b : (mapSet (mapSet cells (getCellKey A.row A.col)
        { B with row := A.row, col := A.col })
        (getCellKey B.row B.col) { A with row := B.row, col := B.col }) (getCellKey A.row A.col)
        = some { B with row := A.row, col := A.col } := by
      simp [mapSet, hkey]
    have hcB2 : cellHasContent (some { B with row := A.row, col := A.col }) = true := hcB
    have e2 : handleCellDrop (mapSet (mapSet cells (getCellKey A.row A.col)
          { B with row := A.row, col := A.col })
          (getCellKey B.row B.col) { A with row := B.row, col := B.col }) B.row B.col A.row A.col =
        mapSet (mapSet (mapSet (mapSet cells (getCellKey A.row A.col)
            { B with row := A.row, col := A.col })
            (getCellKey B.row B.col) { A with row := B.row, col := B.col })
          (getCellKey B.row B.col) B) (getCellKey A.row A.col) A := by
      simp only [handleCellDrop, if_neg hne2, h1b, h2b, hcB2, if_true]
    rw [e2]
    intro k
    by_cases hks : k = getCellKey A.row A.col
    · subst hks
      simp [mapSet, hkey, h1]
    · by_cases hkt : k = getCellKey B.row B.col
      · subst hkt
        simp [mapSet, Ne.symm hkey, h2, hks]
      · simp [mapSet, hks, hkt]
  · -- involution through handleCrossGridDrop, same or different surfaces
    by_cases hg : g1 = g2
    · subst hg
      have hcB2 : cellHasContent (some { B with row := A.row, col := A.col }) = true := hcB
      have e1 : handleCrossGridDrop st g1 g1 A B.row B.col =
          setGrid st g1 (mapSet (mapSet (gridOf st g1) (getCellKey B.row B.col)
              { A with row := B.row, col := B.col })
            (getCellKey A.row A.col) { B with row := A.row, col := A.col }) := by
        simp only [handleCrossGridDrop, hm2, hcB, if_true, if_pos rfl]
      rw [e1]
      have hm1b : gridOf (setGrid st g1 (mapSet (mapSet (gridOf st g1) (getCellKey B.row B.col)
              { A with row := B.row, col := B.col })
            (getCellKey A.row A.col) { B with row := A.row, col := A.col })) g1
            (getCellKey A.row A.col) = some { B with row := A.row, col := A.col } := by
        rw [gridOf_setGrid_same]
        simp [mapSet]
      have e2 : handleCrossGridDrop (setGrid st g1 (mapSet (mapSet (gridOf st g1)
              (getCellKey B.row B.col) { A with row := B.row, col := B.col })
            (getCellKey A.row A.col) { B with row := A.row, col := A.col })) g1 g1
            { A with row := B.row, col := B.col } A.row A.col =
          setGrid st g1 (mapSet (mapSet (mapSet (mapSet (gridOf st g1) (getCellKey B.row B.col)
              { A with row := B.row, col := B.col })
            (getCellKey A.row A.col) { B with row := A.row, col := A.col })
            (getCellKey A.row A.col) A) (getCellKey B.row B.col) B) := by
        simp only [handleCrossGridDrop, hm1b, hcB2, if_true, if_pos rfl, gridOf_setGrid_same,
          setGrid_setGrid]
      rw [e2]
      intro g k
      by_cases hgg : g = g1
      · subst hgg
        rw [gridOf_setGrid_same]
        by_cases hks : k = getCellKey A.row A.col
        · subst hks; simp [mapSet, hkey, hm1]
        · by_cases hkt : k = getCellKey B.row B.col
          · subst hkt; simp [mapSet, Ne.symm hkey, hm2, hks]
          · simp [mapSet, hks, hkt]
      · rw [gridOf_setGrid_ne _ _ _ _ hgg]
    · have hg2 : g2 ≠ g1 := Ne.symm hg
      have hcB2 : cellHasContent (some { B with row := A.row, col := A.col }) = true := hcB
      have e1 : handleCrossGridDrop st g1 g2 A B.row B.col =
          setGrid (setGrid st g2 (mapSet (gridOf st g2) (getCellKey B.row B.col)
              { A with row := B.row, col := B.col })) g1
            (mapSet (gridOf st g1) (getCellKey A.row A.col)
              { B with row := A.row, col := A.col }) := by
        simp only [handleCrossGridDrop, hm2, hcB, if_true, if_neg hg,
          gridOf_setGrid_ne _ _ _ _ hg]
      rw [e1]
      have hm1b : gridOf (setGrid (setGrid st g2 (mapSet (gridOf st g2) (getCellKey B.row B.col)
              { A with row := B.row, col := B.col })) g1
            (mapSet (gridOf st g1) (getCellKey A.row A.col)
              { B with row := A.row, col := A.col })) g1 (getCellKey A.row A.col)
          = some { B with row := A.row, col := A.col } := by
        rw [gridOf_setGrid_same]
        simp [mapSet]
      have e2 : handleCrossGridDrop (setGrid (setGrid st g2 (mapSet (gridOf st g2)
              (getCellKey B.row B.col) { A with row := B.row, col := B.col })) g1
            (mapSet (gridOf st g1) (getCellKey A.row A.col)
              { B with row := A.row, col := A.col })) g2 g1
            { A with row := B.row, col := B.col } A.row A.col =
          setGrid (setGrid (setGrid (setGrid st g2 (mapSet (gridOf st g2) (getCellKey B.row B.col)
              { A with row := B.row, col := B.col })) g1
            (mapSet (gridOf st g1) (getCellKey A.row A.col)
              { B with row := A.row, col := A.col })) g1
            (mapSet (mapSet (gridOf st g1) (getCellKey A.row A.col)
              { B with row := A.row, col := A.col }) (getCellKey A.row A.col) A)) g2
            (mapSet (mapSet (gridOf st g2) (getCellKey B.row B.col)
              { A with row := B.row, col := B.col }) (getCellKey B.row B.col) B) := by
        simp only [handleCrossGridDrop, hm1b, hcB2, if_true, if_neg hg2,
          gridOf_setGrid_same, gridOf_setGrid_ne _ _ _ _ hg2, gridOf_setGrid_ne _ _ _ _ hg]
      rw [e2]
      intro g k
      by_cases hgg1 : g = g1
      · subst hgg1
        rw [gridOf_setGrid_ne _ _ _ _ hg, gridOf_setGrid_same]
        by_cases hks : k = getCellKey A.row A.col
        · subst hks; simp [mapSet, hm1]
        · simp [mapSet, hks]
      · by_cases hgg2 : g = g2
        · subst hgg2
          rw [gridOf_setGrid_same]
          by_cases hkt : k = getCellKey B.row B.col
          · subst hkt; simp [mapSet, hm2]
          · simp [mapSet, hkt]
        · rw [gridOf_setGrid_ne _ _ _ _ hgg2, gridOf_setGrid_ne _ _ _ _ hgg1,
            gridOf_setGrid_ne _ _ _ _ hgg1, gridOf_setGrid_ne _ _ _ _ hgg2]

/-- Witness for C1 at concrete cells: the double same-surface drop restores
the source key of the map, and the double main-to-buffer drop restores the
buffer entry. -/
theorem drop_involution_witness :
    handleCellDrop (handleCellDrop dropWitnessCells 0 0 1 2) 1 2 0 0 (getCellKey 0 0)
      = dropWitnessCells (getCellKey 0 0) ∧
    gridOf (handleCrossGridDrop (handleCrossGridDrop dropWitnessStores .main .buffer
          dropWitnessA 1 2) .buffer .main
        { dropWitnessA with row := 1, col := 2 } 0 0) .buffer (getCellKey 1 2)
      = gridOf dropWitnessStores .buffer (getCellKey 1 2) :=
  ⟨(drop_involution dropWitnessCells dropWitnessStores .main .buffer dropWitnessA dropWitnessB
      0 0 1 2 rfl rfl rfl rfl (by decide) (by decide) (by decide) (by decide) (by decide)
      (by decide) (by decide)).1 (getCellKey 0 0),
   (drop_involution dropWitnessCells dropWitnessStores .main .buffer dropWitnessA dropWitnessB
      0 0 1 2 rfl rfl rfl rfl (by decide) (by decide) (by decide) (by decide) (by decide)
      (by decide) (by decide)).2 .buffer (getCellKey 1 2)⟩

/-- C8: import atomicity on malformed input — when the JSON parse fails,
importData surfaces an explicit error, performs no durable operation, and
both record spaces are left completely untouched; the clear-then-save
sequence never begins. -/
theorem importData_malformed_atomic
    (parseJson : String → Option ParsedImport) (jsonData : String) (st : Stores)
    (h : parseJson jsonData = none) :
    importData parseJson jsonData = .error importErrorMessage ∧
    runImport parseJson jsonData st = (.error importErrorMessage, st) := by
  refine ⟨by simp [importData, h], by simp [runImport, importData, h]⟩

/-- Witness for C8 at a concrete non-JSON input and a parse function that
rejects it. -/
theorem importData_malformed_atomic_witness :
    importData (fun _ => none) "not json" = .error importErrorMessage ∧
    runImport (fun _ => none) "not json" ⟨emptyCellMap, emptyCellMap⟩ =
      (.error importErrorMessage, ⟨emptyCellMap, emptyCellMap⟩) :=
  importData_malformed_atomic (fun _ => none) "not json" ⟨emptyCellMap, emptyCellMap⟩ rfl

/-! Viewport-preservation lemmas: only the pinch-zoom branch of the move
handler ever writes the viewport. -/

theorem handlePointerDownM_viewport (env : GestureEnv) (s : MachineState) (pid : Nat)
    (x y t : ℚ) : (handlePointerDownM env s pid x y t).1.viewport = s.viewport := by
  unfold handlePointerDownM
  dsimp only
  repeat' split <;> try rfl

theorem handlePointerUpM_viewport (env : GestureEnv) (s : MachineState) (pid : Nat)
    (t : ℚ) : (handlePointerUpM env s pid t).1.viewport = s.viewport := by
  unfold handlePointerUpM
  dsimp only
  repeat' split <;> try rfl

theorem handlePointerCancelM_viewport (s : MachineState) (pid : Nat) :
    (handlePointerCancelM s pid).1.viewport = s.viewport := by
  unfold handlePointerCancelM
  dsimp only
  repeat' split <;> try rfl

theorem fireLongPressTimerM_viewport (env : GestureEnv) (s : MachineState) :
    (fireLongPressTimerM env s).1.viewport = s.viewport := by
  unfold fireLongPressTimerM
  dsimp only
  repeat' split <;> try rfl

theorem applyPinchZoom_scale (env : GestureEnv) (s : MachineState) (p1 p2 : PointerData) :
    (applyPinchZoom env s p1 p2).viewport.scale = s.viewport.scale ∨
    ∃ q : ℚ, (applyPinchZoom env s p1 p2).viewport.scale = max MIN_SCALE (min MAX_SCALE q) := by
  unfold applyPinchZoom
  dsimp only
  split
  · exact Or.inr ⟨_, rfl⟩
  · exact Or.inl rfl

theorem handlePointerMoveM_scale (env : GestureEnv) (s : MachineState) (pid : Nat)
    (x y : ℚ) :
    (handlePointerMoveM env s pid x y).1.viewport.scale = s.viewport.scale ∨
    ∃ q : ℚ, (handlePointerMoveM env s pid x y).1.viewport.scale
      = max MIN_SCALE (min MAX_SCALE q) := by
  unfold handlePointerMoveM
  dsimp only
  repeat' split <;> try exact Or.inl rfl
  exact applyPinchZoom_scale env _ _ _

theorem stepMachine_scale_bounds (env : GestureEnv) (s : MachineState) (e : PointerEvent)
    (h1 : MIN_SCALE ≤ s.viewport.scale) (h2 : s.viewport.scale ≤ MAX_SCALE) :
    MIN_SCALE ≤ (stepMachine env s e).1.viewport.scale ∧
      (stepMachine env s e).1.viewport.scale ≤ MAX_SCALE := by
  cases e with
  | down pid x y t =>
      rw [stepMachine, handlePointerDownM_viewport]
      exact ⟨h1, h2⟩
  | move pid x y =>
      rw [stepMachine]
      rcases handlePointerMoveM_scale env s pid x y with h | ⟨q, h⟩
      · rw [h]; exact ⟨h1, h2⟩
      · rw [h]
        refine ⟨le_max_left _ _, max_le ?_ (min_le_left _ _)⟩
        norm_num [MIN_SCALE, MAX_SCALE]
  | up pid t =>
      rw [stepMachine, handlePointerUpM_viewport]
      exact ⟨h1, h2⟩
  | cancel pid =>
      rw [stepMachine, handlePointerCancelM_viewport]
      exact ⟨h1, h2⟩
  | timerFire =>
      rw [stepMachine, fireLongPressTimerM_viewport]
      exact ⟨h1, h2⟩

theorem runMachine_scale_aux (env : GestureEnv) :
    ∀ (events : List PointerEvent) (s : MachineState) (eff : List GestureEffect),
      MIN_SCALE ≤ s.viewport.scale → s.viewport.scale ≤ MAX_SCALE →
      MIN_SCALE ≤ (events.foldl (fun acc e =>
          ((stepMachine env acc.1 e).1, acc.2 ++ (stepMachine env acc.1 e).2))
          (s, eff)).1.viewport.scale ∧
      (events.foldl (fun acc e =>
          ((stepMachine env acc.1 e).1, acc.2 ++ (stepMachine env acc.1 e).2))
          (s, eff)).1.viewport.scale ≤ MAX_SCALE := by
  intro events
  induction events with
  | nil => intro s eff h1 h2; exact ⟨h1, h2⟩
  | cons e rest ih =>
      intro s eff h1 h2
      have hb := stepMachine_scale_bounds env s e h1 h2
      exact ih (stepMachine env s e).1 (eff ++ (stepMachine env s e).2) hb.1 hb.2

/-- C6: scale clamping — starting from the initial viewport at scale 1, no
sequence of pointer events (pinch gestures included) can drive the viewport
scale outside [0.3, 3.0]: every zoom step clamps the derived scale to
[MIN_SCALE, MAX_SCALE] before applying it, and every other step leaves the
viewport unchanged. -/
theorem scale_always_clamped (env : GestureEnv) (events : List PointerEvent) :
    (3 / 10 : ℚ) ≤ (runMachine env (initMachineState initialViewport) events).1.viewport.scale ∧
    (runMachine env (initMachineState initialViewport) events).1.viewport.scale ≤ 3 := by
  have h := runMachine_scale_aux env events (initMachineState initialViewport) []
    (by norm_num [initMachineState, initialViewport, MIN_SCALE])
    (by norm_num [initMachineState, initialViewport, MAX_SCALE])
  rw [show (3 / 10 : ℚ) = MIN_SCALE from rfl, show (3 : ℚ) = MAX_SCALE from rfl]
  exact h

/-! Pinch anchoring. -/

theorem applyPinchZoom_anchors (env : GestureEnv) (s : MachineState) (p1 p2 : PointerData)
    (hthresh : |env.sqrtQ (dist2 p1.x p1.y p2.x p2.y) - s.initialPinchDistance| > PINCH_THRESHOLD)
    (hscale : s.viewport.scale ≠ 0) :
    invTransformX env (applyPinchZoom env s p1 p2).viewport ((p1.x + p2.x) / 2) =
      invTransformX env s.viewport ((p1.x + p2.x) / 2) ∧
    invTransformY env (applyPinchZoom env s p1 p2).viewport ((p1.y + p2.y) / 2) =
      invTransformY env s.viewport ((p1.y + p2.y) / 2) := by
  have hns : (0 : ℚ) < max MIN_SCALE (min MAX_SCALE
      (s.initialScale * (env.sqrtQ (dist2 p1.x p1.y p2.x p2.y) / s.initialPinchDistance))) :=
    lt_of_lt_of_le (by norm_num [MIN_SCALE]) (le_max_left _ _)
  unfold applyPinchZoom
  dsimp only
  rw [if_pos hthresh]
  unfold invTransformX invTransformY
  dsimp only
  generalize hgen : max MIN_SCALE (min MAX_SCALE
      (s.initialScale * (env.sqrtQ (dist2 p1.x p1.y p2.x p2.y) / s.initialPinchDistance))) = ns
  rw [hgen] at hns
  constructor
  · field_simp [ne_of_gt hns]
    ring
  · field_simp [ne_of_gt hns]
    ring

theorem screenToGrid_congr (env : GestureEnv) (vp1 vp2 : ViewportState) (sx sy : ℚ)
    (hx : invTransformX env vp1 sx = invTransformX env vp2 sx)
    (hy : invTransformY env vp1 sy = invTransformY env vp2 sy) :
    screenToGrid env vp1 sx sy = screenToGrid env vp2 sx sy := by
  unfold screenToGrid
  rw [hx, hy]

/-- C5 (amended): every two-finger pinch zoom step of the move handler keeps
the screen point at the CURRENT pinch centroid — the centroid of the two
pointers at the move event, which the source recomputes each step — mapped to
the same content position and the same grid cell before and after the scale
change, via new_offset = center − (center − old_offset) × (new_scale /
old_scale). The initial centroid is only preserved when the centroid has not
moved; see the counterexample theorem for the claim as originally stated. -/
theorem pinch_step_anchors_current_centroid
    (env : GestureEnv) (s : MachineState) (pid : Nat) (x y : ℚ) (p1 p2 : PointerData)
    (hfound : (findPointer s.pointers pid).isSome = true)
    (hps : updatePointerPos s.pointers pid x y = [p1, p2])
    (hzoom : s.gesture = .zooming)
    (hthresh : |env.sqrtQ (dist2 p1.x p1.y p2.x p2.y) - s.initialPinchDistance| > PINCH_THRESHOLD)
    (hscale : s.viewport.scale ≠ 0) :
    invTransformX env (handlePointerMoveM env s pid x y).1.viewport ((p1.x + p2.x) / 2) =
      invTransformX env s.viewport ((p1.x + p2.x) / 2) ∧
    invTransformY env (handlePointerMoveM env s pid x y).1.viewport ((p1.y + p2.y) / 2) =
      invTransformY env s.viewport ((p1.y + p2.y) / 2) ∧
    screenToGrid env (handlePointerMoveM env s pid x y).1.viewport
        ((p1.x + p2.x) / 2) ((p1.y + p2.y) / 2) =
      screenToGrid env s.viewport ((p1.x + p2.x) / 2) ((p1.y + p2.y) / 2) := by
  obtain ⟨pf, hpf⟩ := Option.isSome_iff_exists.mp hfound
  have estep : handlePointerMoveM env s pid x y =
      (applyPinchZoom env { s with pointers := [p1, p2] } p1 p2, []) := by
    unfold handlePointerMoveM
    rw [hpf, hps]
    norm_num [hzoom]
  rw [estep]
  have h := applyPinchZoom_anchors env { s with pointers := [p1, p2] } p1 p2 hthresh hscale
  exact ⟨h.1, h.2, screenToGrid_congr env _ _ _ _ h.1 h.2⟩

/-- Counterexample to C5 as stated: a pinch whose centroid moves. Fingers go
down at (130,70) and (170,70) — initial centroid (150,70), recorded in the
machine state, over grid cell (1,1) — then the second finger moves to
(370,70). The step scales by the clamped distance ratio (scale 3), but the
screen point at the INITIAL centroid (150,70) now maps to grid cell (1,2),
not (1,1): the code anchors the current centroid (250,70), not the initial
one. -/
theorem pinch_initial_centroid_counterexample :
    (runMachine pinchEnv (initMachineState initialViewport)
      [.down 1 130 70 0, .down 2 170 70 0, .move 2 370 70]).1.initialPinchCenterX = 150 ∧
    (runMachine pinchEnv (initMachineState initialViewport)
      [.down 1 130 70 0, .down 2 170 70 0, .move 2 370 70]).1.initialPinchCenterY = 70 ∧
    (runMachine pinchEnv (initMachineState initialViewport)
      [.down 1 130 70 0, .down 2 170 70 0, .move 2 370 70]).1.viewport.scale = 3 ∧
    initialViewport.scale = 1 ∧
    screenToGrid pinchEnv initialViewport 150 70 = some (1, 1) ∧
    screenToGrid pinchEnv (runMachine pinchEnv (initMachineState initialViewport)
      [.down 1 130 70 0, .down 2 170 70 0, .move 2 370 70]).1.viewport 150 70 = some (1, 2) := by
  with_unfolding_all decide

/-- Witness for the amended C5 at a concrete zoom step: the second finger
moves to (370,70) and the current centroid keeps its mapping. -/
theorem pinch_step_anchors_current_centroid_witness :
    invTransformX pinchEnv (handlePointerMoveM pinchEnv pinchWitnessState 2 370 70).1.viewport
        (((130 : ℚ) + 370) / 2) =
      invTransformX pinchEnv pinchWitnessState.viewport (((130 : ℚ) + 370) / 2) ∧
    invTransformY pinchEnv (handlePointerMoveM pinchEnv pinchWitnessState 2 370 70).1.viewport
        (((70 : ℚ) + 70) / 2) =
      invTransformY pinchEnv pinchWitnessState.viewport (((70 : ℚ) + 70) / 2) ∧
    screenToGrid pinchEnv (handlePointerMoveM pinchEnv pinchWitnessState 2 370 70).1.viewport
        (((130 : ℚ) + 370) / 2) (((70 : ℚ) + 70) / 2) =
      screenToGrid pinchEnv pinchWitnessState.viewport
        (((130 : ℚ) + 370) / 2) (((70 : ℚ) + 70) / 2) :=
  pinch_step_anchors_current_centroid pinchEnv pinchWitnessState 2 370 70
    ⟨1, 130, 70, 130, 70, 0⟩ ⟨2, 370, 70, 170, 70, 0⟩
    (by with_unfolding_all decide) (by with_unfolding_all decide) rfl
    (by with_unfolding_all decide) (by with_unfolding_all decide)

/-! Composition lemmas for machine runs. -/

theorem runMachine_nil (env : GestureEnv) (s : MachineState) :
    runMachine env s [] = (s, []) := rfl

theorem runFold_shift (env : GestureEnv) :
    ∀ (l : List PointerEvent) (s : MachineState) (eff : List GestureEffect),
      l.foldl (fun acc e =>
          ((stepMachine env acc.1 e).1, acc.2 ++ (stepMachine env acc.1 e).2)) (s, eff) =
        ((runMachine env s l).1, eff ++ (runMachine env s l).2) := by
  intro l
  induction l with
  | nil => intro s eff; simp [runMachine]
  | cons e rest ih =>
      intro s eff
      unfold runMachine
      rw [List.foldl_cons, List.foldl_cons]
      dsimp only
      rw [ih (stepMachine env s e).1 (eff ++ (stepMachine env s e).2),
          ih (stepMachine env s e).1 ([] ++ (stepMachine env s e).2)]
      unfold runMachine
      simp

theorem runMachine_cons_of (env : GestureEnv) (s s2 : MachineState) (e : PointerEvent)
    (eff : List GestureEffect) (rest : List PointerEvent)
    (hstep : stepMachine env s e = (s2, eff)) :
    runMachine env s (e :: rest) =
      ((runMachine env s2 rest).1, eff ++ (runMachine env s2 rest).2) := by
  unfold runMachine
  rw [List.foldl_cons]
  dsimp only
  rw [hstep]
  dsimp only
  have h := runFold_shift env rest s2 eff
  unfold runMachine at h
  simpa using h

theorem runMachine_append (env : GestureEnv) (s : MachineState)
    (l1 l2 : List PointerEvent) :
    runMachine env s (l1 ++ l2) =
      ((runMachine env (runMachine env s l1).1 l2).1,
        (runMachine env s l1).2 ++ (runMachine env (runMachine env s l1).1 l2).2) := by
  unfold runMachine
  rw [List.foldl_append]
  have h := runFold_shift env l2 (runMachine env s l1).1 (runMachine env s l1).2
  unfold runMachine at h
  simpa using h

theorem tap_down_step (env : GestureEnv) (vp : ViewportState) (pid : Nat) (x0 y0 t0 : ℚ)
    (r c : Int) (hsg : screenToGrid env vp x0 y0 = some (r, c)) :
    stepMachine env (initMachineState vp) (.down pid x0 y0 t0) =
      (tapMidState vp pid x0 y0 t0 r c x0 y0, []) := by
  show handlePointerDownM env (initMachineState vp) pid x0 y0 t0 = _
  unfold handlePointerDownM insertPointer initMachineState
  simp [hsg, tapMidState]

theorem tap_move_step (env : GestureEnv) (vp : ViewportState) (pid : Nat) (x0 y0 t0 : ℚ)
    (r c : Int) (cx cy mx my : ℚ)
    (hlt : dist2 mx my x0 y0 < TAP_THRESHOLD ^ 2) :
    stepMachine env (tapMidState vp pid x0 y0 t0 r c cx cy) (.move pid mx my) =
      (tapMidState vp pid x0 y0 t0 r c mx my, []) := by
  show handlePointerMoveM env (tapMidState vp pid x0 y0 t0 r c cx cy) pid mx my = _
  unfold handlePointerMoveM tapMidState findPointer updatePointerPos
  simp [dist2] at hlt ⊢
  exact le_of_lt hlt

theorem tap_moves_fold (env : GestureEnv) (vp : ViewportState) (pid : Nat) (x0 y0 t0 : ℚ)
    (r c : Int) :
    ∀ (moves : List (ℚ × ℚ)) (cx cy : ℚ),
      (∀ m ∈ moves, dist2 m.1 m.2 x0 y0 < TAP_THRESHOLD ^ 2) →
      dist2 cx cy x0 y0 < TAP_THRESHOLD ^ 2 →
      ∃ dx dy : ℚ, dist2 dx dy x0 y0 < TAP_THRESHOLD ^ 2 ∧
        runMachine env (tapMidState vp pid x0 y0 t0 r c cx cy)
            (moves.map (fun m => PointerEvent.move pid m.1 m.2)) =
          (tapMidState vp pid x0 y0 t0 r c dx dy, []) := by
  intro moves
  induction moves with
  | nil =>
      intro cx cy _ hcur
      exact ⟨cx, cy, hcur, rfl⟩
  | cons m rest ih =>
      intro cx cy hall hcur
      have hm : dist2 m.1 m.2 x0 y0 < TAP_THRESHOLD ^ 2 := hall m (List.mem_cons_self m rest)
      have hrest : ∀ m2 ∈ rest, dist2 m2.1 m2.2 x0 y0 < TAP_THRESHOLD ^ 2 :=
        fun m2 hm2 => hall m2 (List.mem_cons_of_mem m hm2)
      obtain ⟨dx, dy, hd, heq⟩ := ih m.1 m.2 hrest hm
      refine ⟨dx, dy, hd, ?_⟩
      rw [List.map_cons]
      rw [runMachine_cons_of env _ _ _ _ _
        (tap_move_step env vp pid x0 y0 t0 r c cx cy m.1 m.2 hm)]
      rw [heq]
      simp

theorem tap_up_step (env : GestureEnv) (vp : ViewportState) (pid : Nat) (x0 y0 t0 : ℚ)
    (r c : Int) (dx dy t1 : ℚ)
    (hlt : dist2 dx dy x0 y0 < TAP_THRESHOLD ^ 2)
    (hdur : t1 - t0 < LONG_PRESS_DURATION)
    (hsg : screenToGrid env vp x0 y0 = some (r, c)) :
    stepMachine env (tapMidState vp pid x0 y0 t0 r c dx dy) (.up pid t1) =
      (initMachineState vp, [.cellTap r c]) := by
  show handlePointerUpM env (tapMidState vp pid x0 y0 t0 r c dx dy) pid t1 = _
  unfold handlePointerUpM tapMidState findPointer removePointer
  simp [hsg, hlt, hdur, initMachineState]

theorem longpress_fire_step (env : GestureEnv) (vp : ViewportState) (pid : Nat)
    (x0 y0 t0 : ℚ) (r c : Int) (dx dy : ℚ) (cell : CellData)
    (hlt : dist2 dx dy x0 y0 < TAP_THRESHOLD ^ 2)
    (hcell : env.cells (getCellKey r c) = some cell)
    (hcontent : cellHasContent (some cell) = true) :
    stepMachine env (tapMidState vp pid x0 y0 t0 r c dx dy) .timerFire =
      (⟨[⟨pid, dx, dy, x0, y0, t0⟩], .dragging, none, 0, 1, 0, 0, vp,
          ⟨true, some cell, r, c, x0, y0⟩⟩,
        [.dragStart cell r c]) := by
  show fireLongPressTimerM env (tapMidState vp pid x0 y0 t0 r c dx dy) = _
  unfold fireLongPressTimerM tapMidState findPointer
  simp [hlt, hcell, hcontent]

/-- C4: gesture disambiguation. From a quiescent machine, a first pointer-down
over a resolved grid cell, any moves of that contact staying strictly under
the tap threshold, and — first part — a pointer-up strictly under the
long-press duration produce exactly one cell-tap, resolved at the start point
(not the release point), and return the machine to its initial state: the
viewport is untouched (no pan or zoom) and no drag effect is emitted. Second
part: the long-press timer firing instead of the pointer-up, over a populated
cell, produces exactly one drag-start and enters the dragging state. -/
theorem gesture_disambiguation (env : GestureEnv) (vp : ViewportState) (pid : Nat)
    (x0 y0 t0 : ℚ) (moves : List (ℚ × ℚ)) (r c : Int)
    (hsg : screenToGrid env vp x0 y0 = some (r, c))
    (hmoves : ∀ m ∈ moves, dist2 m.1 m.2 x0 y0 < TAP_THRESHOLD ^ 2) :
    (∀ t1 : ℚ, t1 - t0 < LONG_PRESS_DURATION →
      runMachine env (initMachineState vp)
        (PointerEvent.down pid x0 y0 t0 ::
          (moves.map (fun m => PointerEvent.move pid m.1 m.2) ++ [PointerEvent.up pid t1])) =
        (initMachineState vp, [GestureEffect.cellTap r c])) ∧
    (∀ cell : CellData, env.cells (getCellKey r c) = some cell →
      cellHasContent (some cell) = true →
      ∃ dx dy : ℚ,
        runMachine env (initMachineState vp)
          (PointerEvent.down pid x0 y0 t0 ::
            (moves.map (fun m => PointerEvent.move pid m.1 m.2) ++ [PointerEvent.timerFire])) =
          (⟨[⟨pid, dx, dy, x0, y0, t0⟩], .dragging, none, 0, 1, 0, 0, vp,
              ⟨true, some cell, r, c, x0, y0⟩⟩,
            [GestureEffect.dragStart cell r c])) := by
  have hstart : dist2 x0 y0 x0 y0 < TAP_THRESHOLD ^ 2 := by
    norm_num [dist2, TAP_THRESHOLD]
  obtain ⟨dx, dy, hd, hfold⟩ :=
    tap_moves_fold env vp pid x0 y0 t0 r c moves x0 y0 hmoves hstart
  constructor
  · intro t1 hdur
    rw [runMachine_cons_of env _ _ _ _ _ (tap_down_step env vp pid x0 y0 t0 r c hsg)]
    rw [runMachine_append, hfold]
    rw [runMachine_cons_of env _ _ _ _ _
      (tap_up_step env vp pid x0 y0 t0 r c dx dy t1 hd hdur hsg)]
    simp [runMachine_nil]
  · intro cell hcell hcontent
    refine ⟨dx, dy, ?_⟩
    rw [runMachine_cons_of env _ _ _ _ _ (tap_down_step env vp pid x0 y0 t0 r c hsg)]
    rw [runMachine_append, hfold]
    rw [runMachine_cons_of env _ _ _ _ _
      (longpress_fire_step env vp pid x0 y0 t0 r c dx dy cell hd hcell hcontent)]
    simp [runMachine_nil]

/-- Witness for C4 at a concrete trace: pointer-down at (150,70) over cell
(1,1), a 5 px move, then either an up at 400 ms (one tap) or the timer firing
(one drag-start). -/
theorem gesture_disambiguation_witness :
    runMachine tapWitnessEnv (initMachineState initialViewport)
      (PointerEvent.down 7 150 70 0 ::
        ([((153 : ℚ), (74 : ℚ))].map (fun m => PointerEvent.move 7 m.1 m.2) ++
          [PointerEvent.up 7 400])) =
      (initMachineState initialViewport, [GestureEffect.cellTap 1 1]) ∧
    (runMachine tapWitnessEnv (initMachineState initialViewport)
      (PointerEvent.down 7 150 70 0 ::
        ([((153 : ℚ), (74 : ℚ))].map (fun m => PointerEvent.move 7 m.1 m.2) ++
          [PointerEvent.timerFire]))).2 =
      [GestureEffect.dragStart tapWitnessCell 1 1] := by
  have h := gesture_disambiguation tapWitnessEnv initialViewport 7 150 70 0
    [(153, 74)] 1 1 (by with_unfolding_all decide) (by with_unfolding_all decide)
  refine ⟨h.1 400 (by norm_num [LONG_PRESS_DURATION]), ?_⟩
  obtain ⟨dx, dy, heq⟩ := h.2 tapWitnessCell (by with_unfolding_all decide)
    (by with_unfolding_all decide)
  rw [heq]

/-- Long-press firing over a cell without content (or no cell at all) emits
nothing and leaves the drag state as it was. -/
theorem fireLongPressTimerM_no_content (env : GestureEnv) (s : MachineState) (tm : TimerData)
    (htimer : s.timer = some tm)
    (hnc : cellHasContent (env.cells (getCellKey tm.row tm.col)) = false) :
    (fireLongPressTimerM env s).2 = [] ∧ (fireLongPressTimerM env s).1.drag = s.drag := by
  unfold fireLongPressTimerM
  rw [htimer]
  dsimp only
  cases hfp : findPointer s.pointers tm.pid with
  | none => exact ⟨rfl, rfl⟩
  | some p =>
      dsimp only
      by_cases hcond : s.pointers.length = 1 ∧ dist2 p.x p.y p.startX p.startY < TAP_THRESHOLD ^ 2
      · rw [if_pos hcond]
        cases hcl : env.cells (getCellKey tm.row tm.col) with
        | none => exact ⟨rfl, rfl⟩
        | some cell =>
            rw [hcl] at hnc
            dsimp only
            rw [if_neg (by simp [hnc])]
            exact ⟨rfl, rfl⟩
      · rw [if_neg hcond]
        exact ⟨rfl, rfl⟩

/-- C9: the emptiness test ignores code2 and code3. A record with empty code1,
zero quantity and empty note is classified as contentless however code2 and
code3 are filled; committing it from the editor deletes the map entry and
issues a durable delete (discarding the code2/code3 text); the draw loop never
paints it as a populated cell; and the long-press timer firing over it emits
no drag-start and leaves the drag state untouched. -/
theorem emptiness_ignores_code2_code3 (row col : Int) (c2 c3 : String) (cells : CellMap)
    (env : GestureEnv) (s : MachineState) (tm : TimerData)
    (htimer : s.timer = some tm)
    (hcell : env.cells (getCellKey tm.row tm.col) = some ⟨tm.row, tm.col, "", c2, c3, 0, ""⟩) :
    cellHasContent (some ⟨row, col, "", c2, c3, 0, ""⟩) = false ∧
    handleCellSave cells ⟨row, col, "", c2, c3, 0, ""⟩ =
      (mapDelete cells (getCellKey row col), .del row col) ∧
    isRenderedAsPopulated (mapSet cells (getCellKey row col) ⟨row, col, "", c2, c3, 0, ""⟩)
      row col = false ∧
    (fireLongPressTimerM env s).2 = [] ∧
    (fireLongPressTimerM env s).1.drag = s.drag := by
  have hc : cellHasContent (some (⟨row, col, "", c2, c3, 0, ""⟩ : CellData)) = false := by
    simp [cellHasContent]
  have hfire := fireLongPressTimerM_no_content env s tm htimer
    (by rw [hcell]; simp [cellHasContent])
  exact ⟨hc, by simp [handleCellSave, hc],
    by simp [isRenderedAsPopulated, mapSet, hc], hfire.1, hfire.2⟩

/-- Witness for C9 at a concrete record carrying code2 = 10 and code3 = PIM. -/
theorem emptiness_ignores_code2_code3_witness :
    cellHasContent (some ⟨2, 3, "", "10", "PIM", 0, ""⟩) = false ∧
    handleCellSave emptyCellMap ⟨2, 3, "", "10", "PIM", 0, ""⟩ =
      (mapDelete emptyCellMap (getCellKey 2 3), .del 2 3) ∧
    isRenderedAsPopulated (mapSet emptyCellMap (getCellKey 2 3) ⟨2, 3, "", "10", "PIM", 0, ""⟩)
      2 3 = false ∧
    (fireLongPressTimerM emptinessWitnessEnv emptinessWitnessState).2 = [] ∧
    (fireLongPressTimerM emptinessWitnessEnv emptinessWitnessState).1.drag =
      emptinessWitnessState.drag :=
  emptiness_ignores_code2_code3 2 3 "10" "PIM" emptyCellMap emptinessWitnessEnv
    emptinessWitnessState ⟨7, 1, 1, 150, 70⟩ rfl (by with_unfolding_all decide)

end InvMapper
